import Mathlib

/-!
Verification development for the photokiller photobooth application.

The definitions below are a shallow embedding of the Python sources:
  * `app/compose/layouts.py`  — the layout composer `compose_10x15_strip`
  * `app/print/cups_print.py` — the print dispatcher `print_file_cups`
  * `app/config.py`           — the configuration data model
  * `app/capture/__init__.py`, `app/capture/webcam.py`, `app/capture/dslr.py`
  * `app/ui/main_window.py`   — the capture-session state machine of `MainWindow`

External effects (camera devices, the CUPS daemon, PIL resampling, the Qt
event loop) are modelled as oracles; all control flow, arithmetic, field
accesses and error handling are translated line by line from the source.
-/

namespace Photokiller

/-! ## Pixel model (PIL `Image` fragments used by `layouts.py`) -/

/-- An RGBA pixel. PIL stores channels as 8-bit values. -/
structure Color where
  r : Nat
  g : Nat
  b : Nat
  a : Nat
deriving DecidableEq, Repr

/-- The white base fill of the 10x15 canvas:
`Image.new("RGB", (canvas_w, canvas_h), color=(255, 255, 255))`. -/
def whiteFill : Color := ⟨255, 255, 255, 255⟩

/-- `Image.alpha_composite(bot, top)` at one pixel, for an opaque bottom layer
(the canvas is always opaque when composited in `layouts.py`).  Exact at the two
ends used in proofs: a fully opaque top pixel wins, a fully transparent one
leaves the bottom pixel. -/
def over (bot top : Color) : Color :=
  ⟨(top.r * top.a + bot.r * (255 - top.a)) / 255,
   (top.g * top.a + bot.g * (255 - top.a)) / 255,
   (top.b * top.a + bot.b * (255 - top.a)) / 255,
   255⟩

/-- The image modes PIL supports; `Image.convert(m)` raises `ValueError` for a
string outside this list.  Note that the misspelling `"RGBAA"` that appears in
`layouts.py` line 27 is not a PIL mode. -/
def pilModes : List String :=
  ["1", "L", "P", "RGB", "RGBA", "CMYK", "YCbCr", "LAB", "HSV",
   "I", "F", "LA", "PA", "RGBX", "RGBa", "La"]

/-- `image.convert(mode)`: succeeds exactly for a supported mode string. -/
def pilConvert (mode : String) : Except String Unit :=
  if pilModes.contains mode then .ok ()
  else .error ("ValueError: conversion to " ++ mode ++ " not supported")

/-- A mask file argument of `compose_10x15_strip`, as the composer observes it:
whether the path exists on disk, whether `Image.open` succeeds, the PIL mode of
the loaded image, and its pixel content after being resized to canvas size
(LANCZOS resampling itself is external to the model, so the scaled pixels are
the oracle). -/
structure MaskInput where
  fileExists : Bool
  loadOk : Bool
  mode : String
  pix : Nat → Nat → Color

/-! ## The composer, `compose_10x15_strip` (`app/compose/layouts.py`) -/

/-- Canvas width, `layouts.py` line 11. -/
def canvasW : Nat := 1200

/-- Canvas height, `layouts.py` line 11. -/
def canvasH : Nat := 1800

/-- Slot width `image_w = 543`, line 43. -/
def slotW : Nat := 543

/-- Slot height `image_h = 413`, line 43. -/
def slotH : Nat := 413

/-- `margin_mm = 24`, line 44. -/
def marginMM : Nat := 24

/-- `split_canvas_w = canvas_w // 2`, line 46. -/
def splitCanvasW : Nat := canvasW / 2

/-- `available_height = canvas_h - 300`, line 47. -/
def availableHeight : Nat := canvasH - 300

/-- `spacing = (available_height - image_h * 3) // 4`, lines 50-52. -/
def slotSpacing : Nat := (availableHeight - slotH * 3) / 4

/-- The body of the `try` at `layouts.py` lines 18-28 (background mask): open
the mask, resize it, convert it to RGBA when needed, then
`Image.alpha_composite(canvas.convert('RGBAA'), background)`.  `'RGBAA'` is the
literal mode string in the source. -/
def backgroundMaskTry (m : MaskInput) : Except String Unit := do
  if !m.loadOk then throw "OSError: cannot identify image file"
  if m.mode ≠ "RGBA" then pilConvert "RGBA"
  pilConvert "RGBAA"

/-- The body of the `try` at `layouts.py` lines 98-107 (base mask): open,
resize, convert the mask to RGBA when needed, then
`Image.alpha_composite(canvas.convert('RGBA'), mask)`. -/
def baseMaskTry (m : MaskInput) : Except String Unit := do
  if !m.loadOk then throw "OSError: cannot identify image file"
  if m.mode ≠ "RGBA" then pilConvert "RGBA"
  pilConvert "RGBA"

/-- Whether the guarded mask-application block changes the canvas: the path
must be given and exist (`if background_mask_path and
background_mask_path.exists():`), and the `try` body must not raise. -/
def maskApplied (tryBody : MaskInput → Except String Unit) :
    Option MaskInput → Bool
  | none => false
  | some m => m.fileExists && (tryBody m).isOk

/-- The crop box computed at `layouts.py` lines 61-79.  The float comparison
`ph.width / ph.height > target_ratio` with `target_ratio = image_w / image_h`
is modelled as the exact rational comparison `413 * w > 543 * h`, and the float
truncations `int(ph.height * target_ratio)` and `int(ph.width / target_ratio)`
as Nat division. -/
structure CropBox where
  left : Nat
  top : Nat
  right : Nat
  bottom : Nat
deriving DecidableEq, Repr

def cropBox (w h : Nat) : CropBox :=
  if 413 * w > 543 * h then
    -- image wider than target: crop width, keep full height
    let newWidth := 543 * h / 413
    let left := (w - newWidth) / 2
    ⟨left, 0, left + newWidth, h⟩
  else
    -- image taller than target: crop height, keep full width
    let newHeight := 413 * w / 543
    let top := (h - newHeight) / 2
    ⟨0, top, w, top + newHeight⟩

/-- One `canvas.paste(ph, (x, y))` of a cropped-and-resized photo,
`layouts.py` lines 87-91. -/
structure Placement where
  photoIdx : Nat
  srcW : Nat
  srcH : Nat
  crop : CropBox
  x : Nat
  y : Nat
  w : Nat
  h : Nat
deriving DecidableEq, Repr

/-- Pair each photo with its position in the input sequence. -/
def indexPhotos : Nat → List (Nat × Nat) → List (Nat × Nat × Nat)
  | _, [] => []
  | i, d :: rest => (i, d.1, d.2) :: indexPhotos (i + 1) rest

/-- `if len(imgs) == 1: imgs = imgs + imgs + imgs`, `layouts.py` lines 36-37.
The duplicated entries are the same image object, hence the same index. -/
def triplicateIfSingle (l : List (Nat × Nat × Nat)) : List (Nat × Nat × Nat) :=
  if l.length = 1 then l ++ l ++ l else l

/-- The paste loop `for im in imgs[:3]:`, `layouts.py` lines 57-93.  `y` is the
running vertical offset (`y = margin_mm + spacing` before the loop,
`y += image_h + spacing` at the end of each iteration); each photo is pasted
twice, at `x = (split_canvas_w - image_w) // 2` and at that offset shifted by
`split_canvas_w`. -/
def pasteLoop (y : Nat) : List (Nat × Nat × Nat) → List Placement
  | [] => []
  | (i, w, h) :: rest =>
    let x1 := (splitCanvasW - slotW) / 2
    let x2 := (splitCanvasW - slotW) / 2 + splitCanvasW
    ⟨i, w, h, cropBox w h, x1, y, slotW, slotH⟩ ::
    ⟨i, w, h, cropBox w h, x2, y, slotW, slotH⟩ ::
    pasteLoop (y + slotH + slotSpacing) rest

/-- All pastes performed by one call of the composer, given the pixel
dimensions of the input photos in order. -/
def slotPlacements (dims : List (Nat × Nat)) : List Placement :=
  pasteLoop (marginMM + slotSpacing) ((triplicateIfSingle (indexPhotos 0 dims)).take 3)

/-- The observable result of `compose_10x15_strip`. -/
structure ComposeOut where
  width : Nat
  height : Nat
  backgroundApplied : Bool
  baseApplied : Bool
  placements : List Placement
  savedPath : String
  quality : Nat
deriving Repr

/-- `compose_10x15_strip(images, output_path, base_mask_path,
background_mask_path)`: allocate the 1200x1800 white canvas, attempt the
background mask layer, paste the (possibly triplicated) photos, attempt the
base mask layer, save at quality 95 and return the output path. -/
def compose_10x15_strip (dims : List (Nat × Nat)) (outputPath : String)
    (baseMask : Option MaskInput) (backgroundMask : Option MaskInput) : ComposeOut :=
  { width := canvasW
    height := canvasH
    backgroundApplied := maskApplied backgroundMaskTry backgroundMask
    baseApplied := maskApplied baseMaskTry baseMask
    placements := slotPlacements dims
    savedPath := outputPath
    quality := 95 }

/-- Whether a canvas position is covered by a paste. -/
def inPlacement (p : Placement) (x y : Nat) : Bool :=
  decide (p.x ≤ x) && decide (x < p.x + p.w) && decide (p.y ≤ y) && decide (y < p.y + p.h)

/-- The pixel of the saved output at a canvas position, following the layer
order of `compose_10x15_strip`: white base fill, then the background mask (if
its application succeeded), then the photo pastes (opaque), then the base mask
(if its application succeeded).  `photoPix` is the content of resized photos
(external resampling, oracle). -/
def composedPixel (out : ComposeOut) (baseMask backgroundMask : Option MaskInput)
    (photoPix : Nat → Nat → Color) (x y : Nat) : Color :=
  let c0 := whiteFill
  let c1 := match backgroundMask with
    | some m => if out.backgroundApplied then over c0 (m.pix x y) else c0
    | none => c0
  let c2 := if out.placements.any (fun p => inPlacement p x y) then
      ⟨(photoPix x y).r, (photoPix x y).g, (photoPix x y).b, 255⟩
    else c1
  match baseMask with
  | some m => if out.baseApplied then over c2 (m.pix x y) else c2
  | none => c2

/-! ## The print dispatcher, `print_file_cups` (`app/print/cups_print.py`) -/

/-- Outcome of a call of `print_file_cups`: a CUPS job id, the explicit
`RuntimeError` for an unknown printer (line 12), the `IndexError` from
`list(printers.keys())[0]` on an empty printer dict (line 13), or an error
raised by `conn.printFile`. -/
inductive CupsOutcome where
  | ok (jobId : Nat)
  | printerNotFound
  | indexError
  | submitError (msg : String)
deriving DecidableEq, Repr

/-- The `print_options` dict built at `cups_print.py` lines 16-28, with
`media` appended only when `paper_name is not None`. -/
def cupsOptions (copies : Nat) (paperName : Option String) : List (String × String) :=
  [("copies", toString copies), ("fit-to-page", "true"), ("scaling", "100"),
   ("position", "center"), ("print-quality", "4"), ("print-color-mode", "color"),
   ("print-scaling", "fit")] ++
  (match paperName with
   | some p => [("media", p)]
   | none => [])

/-- `print_file_cups(image_path, printer_name, copies, paper_name)`.  The CUPS
connection is the pair of the available printer names and the `printFile`
submission call (an oracle for the daemon). -/
def print_file_cups (availablePrinters : List String)
    (printFileConn : String → String → List (String × String) → Except String Nat)
    (imagePath : String) (printerName : String) (copies : Nat)
    (paperName : Option String) : CupsOutcome :=
  -- `if printer_name and printer_name not in printers: raise RuntimeError(...)`
  if printerName ≠ "" && !availablePrinters.contains printerName then
    .printerNotFound
  else
    -- `target = printer_name or list(printers.keys())[0]`
    match (if printerName ≠ "" then some printerName else availablePrinters.head?) with
    | none => .indexError
    | some target =>
      match printFileConn target imagePath (cupsOptions copies paperName) with
      | .ok jobId => .ok jobId
      | .error m => .submitError m

/-! ## Configuration (`app/config.py`) -/

inductive CameraMode where
  | webcam
  | dslr
deriving DecidableEq, Repr

/-- `CameraConfig`, `config.py` lines 10-15. -/
structure CameraConfig where
  mode : CameraMode
  deviceIndex : Nat
  skipPreview : Bool
  resolutionW : Nat
  resolutionH : Nat
deriving DecidableEq, Repr

/-- `SessionConfig`, `config.py` lines 18-22.  `capture_delay` is a float in
the source; the state machine applies `int(...)` to it before use
(`main_window.py` line 830), so it is carried as the truncated value. -/
structure SessionConfig where
  shots : Nat
  countdownSeconds : Nat
  captureDelay : Nat
  saveDir : String
deriving DecidableEq, Repr

/-- `PrintConfig`, `config.py` lines 25-29.  Note the declared fields: there
is no `paper_name` field. -/
structure PrintConfig where
  enabled : Bool
  printerName : String
  copies : Nat
  paperSizeMM : Nat × Nat
deriving DecidableEq, Repr

/-- `LayoutConfig`, `config.py` lines 32-34. -/
structure LayoutConfig where
  baseMask : String
  backgroundMask : String
deriving DecidableEq, Repr

/-- `AppConfig`, `config.py` lines 43-51 (the GPIO block is never wired into
the main window, so it is omitted). -/
structure AppConfig where
  camera : CameraConfig
  session : SessionConfig
  printing : PrintConfig
  layout : LayoutConfig
deriving DecidableEq, Repr

/-- The defaults of `config.py`. -/
def defaultConfig : AppConfig :=
  { camera := { mode := .webcam, deviceIndex := 0, skipPreview := false,
                resolutionW := 1280, resolutionH := 720 }
    session := { shots := 3, countdownSeconds := 3, captureDelay := 3,
                 saveDir := "sessions" }
    printing := { enabled := true, printerName := "", copies := 1,
                  paperSizeMM := (100, 150) }
    layout := { baseMask := "", backgroundMask := "" } }

/-! ## Python dynamic values and errors

The two capture-path bugs in `main_window.py` surface as Python runtime
errors: an argument of the wrong type receives an attribute access
(`output_dir.mkdir` where `output_dir` is `None` or a bound method), and a
pydantic model is asked for an attribute it does not declare
(`config.printing.paper_name`).  Attribute accesses on dynamically typed
arguments are therefore modelled on a small universe of Python values. -/

inductive PyVal where
  | vBool (b : Bool)
  | vStr (s : String)
  | vNat (n : Nat)
  | vPair (p : Nat × Nat)
  | vPath (p : String)
  | vCallbackMethod
  | vNone
deriving DecidableEq, Repr

inductive PyErr where
  | attributeError (msg : String)
  | typeError (msg : String)
deriving DecidableEq, Repr

/-- `x.mkdir(parents=True, exist_ok=True)`: defined on `pathlib.Path` values
only; on any other value Python raises `AttributeError`. -/
def PyVal.mkdir : PyVal → Except PyErr Unit
  | .vPath _ => .ok ()
  | _ => .error (.attributeError "object has no attribute mkdir")

/-- `range(x)`: requires an integer argument, else `TypeError`. -/
def PyVal.asRange : PyVal → Except PyErr Nat
  | .vNat n => .ok n
  | _ => .error (.typeError "object cannot be interpreted as an integer")

/-- pydantic `BaseModel` attribute lookup on `PrintConfig`: exactly the fields
declared at `config.py` lines 25-29 resolve; any other name raises
`AttributeError` (pydantic models do not create undeclared attributes). -/
def PrintConfig.attr (c : PrintConfig) (name : String) : Except PyErr PyVal :=
  if name = "enabled" then .ok (.vBool c.enabled)
  else if name = "printer_name" then .ok (.vStr c.printerName)
  else if name = "copies" then .ok (.vNat c.copies)
  else if name = "paper_size_mm" then .ok (.vPair c.paperSizeMM)
  else .error (.attributeError ("PrintConfig object has no attribute " ++ name))

def PyErr.msg : PyErr → String
  | .attributeError m => m
  | .typeError m => m

/-! ## The capture modules (`app/capture/`) -/

/-- Oracle for everything external to the orchestration logic: camera frames,
file-save results, session directory names, and the interior device loops of
the two capture modules. -/
structure CaptureOracle where
  /-- `CameraPreview.get_current_frame()` returns a frame (`true`) or `None`,
  per session directory and shot index. -/
  frameOk : String → Nat → Bool
  /-- `QImage.save(...)` result for the captured frame. -/
  saveOk : String → Nat → Bool
  /-- `make_session_dir` timestamp directory for the k-th session started. -/
  dirName : Nat → String
  /-- Paths produced by the device loop of `capture_webcam_photos`, were its
  arguments ever valid (cv2 is external). -/
  webcamShots : List String
  /-- Paths produced by the gphoto2 loop of `capture_dslr_photos`. -/
  dslrShots : List String

/-- `capture_webcam_photos(device_index, resolution, num_photos, output_dir,
capture_delay, preview_callback)` (`webcam.py` lines 11-82).  The function
begins with `output_dir.mkdir(parents=True, exist_ok=True)` and iterates
`for idx in range(num_photos)`; both raise when handed arguments of the wrong
type.  The per-frame cv2 interaction afterwards is the oracle. -/
def capture_webcam_photos (_deviceIndex : Nat) (_resolution : Nat × Nat)
    (numPhotos : PyVal) (outputDir : PyVal) (o : CaptureOracle) :
    Except PyErr (List String) := do
  PyVal.mkdir outputDir
  let _n ← PyVal.asRange numPhotos
  pure o.webcamShots

/-- `capture_dslr_photos(...)` (`dslr.py` lines 12-84): same prologue —
`output_dir.mkdir(parents=True, exist_ok=True)` then
`for idx in range(num_photos)` — followed by the external gphoto2 loop. -/
def capture_dslr_photos (_deviceIndex : Nat) (_resolution : Nat × Nat)
    (numPhotos : PyVal) (outputDir : PyVal) (o : CaptureOracle) :
    Except PyErr (List String) := do
  PyVal.mkdir outputDir
  let _n ← PyVal.asRange numPhotos
  pure o.dslrShots

/-- `capture_photos(camera_mode, device_index, resolution, num_photos,
output_dir, capture_delay, preview_callback)` (`capture/__init__.py` lines
10-43): dispatch on the camera mode. -/
def capture_photos (mode : CameraMode) (deviceIndex : Nat) (resolution : Nat × Nat)
    (numPhotos : PyVal) (outputDir : PyVal) (o : CaptureOracle) :
    Except PyErr (List String) :=
  match mode with
  | .webcam => capture_webcam_photos deviceIndex resolution numPhotos outputDir o
  | .dslr => capture_dslr_photos deviceIndex resolution numPhotos outputDir o

/-! ## The capture-session state machine (`app/ui/main_window.py`) -/

/-- One recorded invocation of `print_file_cups` (the arguments the caller
passes at `main_window.py` lines 932 and 959). -/
structure CupsCall where
  filePath : String
  printerName : String
  copies : Nat
  paperName : Option String
deriving DecidableEq, Repr

/-- What the review overlay is showing: nothing yet, a composed photo
(`ReviewWidget.set_photo`), or an error text (`ReviewWidget.set_error_message`). -/
inductive ReviewContent where
  | empty
  | photo (path : String)
  | errorMsg (msg : String)
deriving DecidableEq, Repr

/-- The mutable state of `MainWindow` that the session logic touches: widget
enabled/visible flags, the session-scoped attributes, the status bar, the
log of CUPS dispatches, the log of composer invocations, and the set of files
written to disk. -/
structure MWState where
  takeOneEnabled : Bool
  takeThreeEnabled : Bool
  reprintEnabled : Bool
  printBtnEnabled : Bool
  discardBtnEnabled : Bool
  reviewVisible : Bool
  countdownVisible : Bool
  reviewContent : ReviewContent
  lastComposedPhoto : Option String
  statusMsg : String
  pendingSession : Option Nat
  currentShot : Nat
  capturedPhotos : List String
  sessionDir : String
  sessionsStarted : Nat
  countdownSeconds : Nat
  timerActive : Bool
  awaitingPause : Bool
  cupsCalls : List CupsCall
  composeLog : List (List String × String)
  disk : List String
deriving DecidableEq, Repr

/-- The state after `MainWindow.__init__`: take buttons enabled, re-print
button disabled (line 632), review and countdown widgets hidden, no last
composed photo (line 665), status bar "Ready" (line 670). -/
def initState : MWState :=
  { takeOneEnabled := true
    takeThreeEnabled := true
    reprintEnabled := false
    printBtnEnabled := true
    discardBtnEnabled := true
    reviewVisible := false
    countdownVisible := false
    reviewContent := .empty
    lastComposedPhoto := none
    statusMsg := "Ready"
    pendingSession := none
    currentShot := 0
    capturedPhotos := []
    sessionDir := ""
    sessionsStarted := 0
    countdownSeconds := 0
    timerActive := false
    awaitingPause := false
    cupsCalls := []
    composeLog := []
    disk := [] }

/-- `self._session_dir / f"shot_{current_shot + 1}.jpg"`. -/
def shotPath (dir : String) (k : Nat) : String :=
  dir ++ "/shot_" ++ toString (k + 1) ++ ".jpg"

/-- `MainWindow._show_review` (lines 878-890): display the photo, re-enable
the take buttons, enable the re-print button.  The print button is not
touched. -/
def showReview (s : MWState) (photoPath : String) : MWState :=
  { s with reviewVisible := true
           reviewContent := .photo photoPath
           takeOneEnabled := true
           takeThreeEnabled := true
           reprintEnabled := true }

/-- `MainWindow._show_error_review` (lines 892-904), which calls
`ReviewWidget.set_error_message` (lines 437-450): show the error text, enable
discard, disable the print button, re-enable the take buttons, disable the
re-print button. -/
def showErrorReview (s : MWState) (msg : String) : MWState :=
  { s with reviewVisible := true
           reviewContent := .errorMsg msg
           discardBtnEnabled := true
           printBtnEnabled := false
           takeOneEnabled := true
           takeThreeEnabled := true
           reprintEnabled := false }

/-- `MainWindow._finish_capture_session` (lines 836-876).  With no captured
photos: status message and error review (early return).  Otherwise: compose
into `<session_dir>/print.jpg` (recorded in `composeLog`, output file written
to disk), store the composed path in `last_composed_photo`, show the review,
and clear the session attributes. -/
def finishCaptureSession (s : MWState) : MWState :=
  if s.capturedPhotos.isEmpty then
    let s := { s with statusMsg := "No photos captured - showing error review" }
    let s := showErrorReview s "No photos were captured.\nPlease check camera connection."
    { s with takeOneEnabled := true, takeThreeEnabled := true }
  else
    let composedPath := s.sessionDir ++ "/print.jpg"
    let s := { s with statusMsg := "Composing layout..."
                      composeLog := s.composeLog ++ [(s.capturedPhotos, composedPath)]
                      disk := s.disk ++ [composedPath] }
    let s := { s with lastComposedPhoto := some composedPath }
    let s := showReview s composedPath
    { s with pendingSession := none }

/-- The per-shot capture attempt inside `MainWindow._execute_single_capture`
(lines 748-804), after the status-bar update.  Webcam with a live preview
thread: read the shared frame and save it, skipping the shot when the frame is
`None` or the save fails.  Otherwise fall back to `capture_photos`, which both
call sites invoke without the `num_photos` argument — the session directory
lands in `num_photos` and the preview callback (resp. `None`) in `output_dir`. -/
def captureAttempt (cfg : AppConfig) (o : CaptureOracle) (s : MWState) (cur : Nat) :
    Except PyErr MWState :=
  if cfg.camera.mode = .webcam then
    if !cfg.camera.skipPreview then
      -- `if self.camera_thread and not self.config.camera.skip_preview:`
      -- (the preview thread exists exactly when skip_preview is false, line 639)
      if o.frameOk s.sessionDir cur then
        let out := shotPath s.sessionDir cur
        if o.saveOk s.sessionDir cur then
          .ok { s with capturedPhotos := s.capturedPhotos ++ [out]
                       disk := s.disk ++ [out] }
        else .ok s -- "Failed to save shot"
      else .ok s -- "Failed to get frame for shot"
    else
      -- lines 764-781: capture_photos(mode, device_index, resolution,
      --                self._session_dir, self._update_preview)
      match capture_photos .webcam cfg.camera.deviceIndex
        (cfg.camera.resolutionW, cfg.camera.resolutionH)
        (.vPath s.sessionDir) .vCallbackMethod o with
      | .error e => .error e
      | .ok [] => .ok s
      | .ok (p :: _) =>
        let newPath := shotPath s.sessionDir cur
        if p ≠ newPath then
          .ok { s with capturedPhotos := s.capturedPhotos ++ [newPath]
                       disk := s.disk.map (fun q => if q = p then newPath else q) }
        else
          .ok { s with capturedPhotos := s.capturedPhotos ++ [p] }
  else
    -- lines 783-804: capture_photos(mode, device_index, resolution,
    --                self._session_dir, None)
    match capture_photos .dslr cfg.camera.deviceIndex
      (cfg.camera.resolutionW, cfg.camera.resolutionH)
      (.vPath s.sessionDir) .vNone o with
    | .error e => .error e
    | .ok [] => .ok s -- "DSLR failed to capture shot"
    | .ok (p :: _) =>
      let newPath := shotPath s.sessionDir cur
      if p ≠ newPath then
        .ok { s with capturedPhotos := s.capturedPhotos ++ [newPath]
                     disk := s.disk.map (fun q => if q = p then newPath else q) }
      else
        .ok { s with capturedPhotos := s.capturedPhotos ++ [p] }

/-- `MainWindow._start_shot_countdown` (lines 815-826): keep the countdown
overlay visible, show the transition labels, and schedule
`_start_next_shot_countdown` via `QTimer.singleShot(1500, ...)` (the pending
single-shot timer is the `awaitingPause` flag). -/
def startShotCountdown (s : MWState) : MWState :=
  { s with countdownVisible := true, awaitingPause := true }

/-- `MainWindow._start_next_shot_countdown` (lines 828-834): reset the
countdown to `int(self.config.session.capture_delay)` and restart the 1s
timer. -/
def startNextShotCountdown (cfg : AppConfig) (s : MWState) : MWState :=
  { s with countdownSeconds := cfg.session.captureDelay
           timerActive := true
           awaitingPause := false }

/-- `MainWindow._execute_single_capture` (lines 738-813): guard on the
`_pending_session` attribute, update the status bar, run the capture attempt,
then either advance to the next shot countdown or finish the session.  An
exception from the capture attempt propagates out of the timer slot
(`Except.error`): `_finish_capture_session` is never reached on that path. -/
def executeSingleCapture (cfg : AppConfig) (o : CaptureOracle) (s : MWState) :
    Except PyErr MWState :=
  match s.pendingSession with
  | none => .ok s -- `if not hasattr(self, '_pending_session'): return`
  | some numShots =>
    let cur := s.currentShot
    let s := { s with statusMsg :=
      "Capturing shot " ++ toString (cur + 1) ++ " of " ++ toString numShots ++ "..." }
    match captureAttempt cfg o s cur with
    | .error e => .error e
    | .ok s1 =>
      if cur + 1 < numShots then
        .ok (startShotCountdown { s1 with currentShot := s1.currentShot + 1 })
      else
        .ok (finishCaptureSession s1)

/-- `MainWindow._update_countdown` (lines 729-736): while positive, display
and decrement; at zero, stop the timer and execute one capture. -/
def updateCountdown (cfg : AppConfig) (o : CaptureOracle) (s : MWState) :
    Except PyErr MWState :=
  if s.countdownSeconds > 0 then
    .ok { s with countdownSeconds := s.countdownSeconds - 1 }
  else
    executeSingleCapture cfg o { s with timerActive := false }

/-- `MainWindow._start_countdown` (lines 706-727), reached from
`_start_session`: show the countdown overlay, disable the session-start and
re-print buttons, reset the session attributes, allocate a fresh session
directory via `make_session_dir`, start the 1s timer, and invoke
`_update_countdown` once immediately. -/
def startCountdown (cfg : AppConfig) (o : CaptureOracle) (s : MWState)
    (numShots : Nat) : Except PyErr MWState :=
  let dir := o.dirName s.sessionsStarted
  let s := { s with countdownSeconds := cfg.session.countdownSeconds
                    countdownVisible := true
                    takeOneEnabled := false
                    takeThreeEnabled := false
                    reprintEnabled := false
                    pendingSession := some numShots
                    currentShot := 0
                    capturedPhotos := []
                    sessionDir := dir
                    sessionsStarted := s.sessionsStarted + 1
                    timerActive := true }
  updateCountdown cfg o s

/-- The CUPS environment seen by the window: available printers and the
daemon submission oracle. -/
structure CupsEnv where
  availablePrinters : List String
  printFileConn : String → String → List (String × String) → Except String Nat

/-- The shared body of `_print_photo` and `_reprint_last_photo` after their
guards: inside the `try`, evaluate the four arguments of `print_file_cups`
left to right — `self.last_composed_photo`, `self.config.printing.printer_name`,
`self.config.printing.copies`, `self.config.printing.paper_name` — then call
it.  An exception during argument evaluation (the `paper_name` attribute
lookup) reaches the `except` before any dispatch; an exception raised by the
dispatch itself reaches the `except` with the dispatch already recorded.
Returns the updated state and the status suffix for the `except` branch, if
taken. -/
def printAttempt (cfg : AppConfig) (cups : CupsEnv) (s : MWState) (p : String) :
    MWState × Option String :=
  match cfg.printing.attr "printer_name" with
  | .error e => (s, some e.msg)
  | .ok pnVal =>
    match cfg.printing.attr "copies" with
    | .error e => (s, some e.msg)
    | .ok cpVal =>
      match cfg.printing.attr "paper_name" with
      | .error e => (s, some e.msg)
      | .ok papVal =>
        let pn := match pnVal with | .vStr x => x | _ => ""
        let cp := match cpVal with | .vNat n => n | _ => 0
        let pap : Option String := match papVal with | .vStr x => some x | _ => none
        let s1 := { s with cupsCalls := s.cupsCalls ++ [⟨p, pn, cp, pap⟩] }
        match print_file_cups cups.availablePrinters cups.printFileConn p pn cp pap with
        | .ok _ => (s1, none)
        | .printerNotFound => (s1, some "RuntimeError: printer not found")
        | .indexError => (s1, some "IndexError: list index out of range")
        | .submitError m => (s1, some m)

/-- `MainWindow._print_photo` (lines 920-945): no composed photo — report and
return; printing disabled — report and return; otherwise show "Printing...",
attempt the dispatch inside `try/except`, and in both cases hide the review
and countdown overlays (returning to the idle main screen).
`last_composed_photo` is deliberately kept (line 943). -/
def printPhoto (cfg : AppConfig) (cups : CupsEnv) (s : MWState) : MWState :=
  match s.lastComposedPhoto with
  | none => { s with statusMsg := "No photo to print" }
  | some p =>
    if !cfg.printing.enabled then
      { s with statusMsg := "Printing is disabled in config" }
    else
      let s1 := { s with statusMsg := "Printing..." }
      let s2 := match printAttempt cfg cups s1 p with
        | (s2, none) => { s2 with statusMsg := "Photo printed successfully!" }
        | (s2, some m) => { s2 with statusMsg := "Print error: " ++ m }
      { s2 with reviewVisible := false, countdownVisible := false }

/-- `MainWindow._reprint_last_photo` (lines 947-964): same guards and attempt
as `_print_photo`, with re-print wording, and without hiding any overlay. -/
def reprintLastPhoto (cfg : AppConfig) (cups : CupsEnv) (s : MWState) : MWState :=
  match s.lastComposedPhoto with
  | none => { s with statusMsg := "No photo to re-print" }
  | some p =>
    if !cfg.printing.enabled then
      { s with statusMsg := "Printing is disabled in config" }
    else
      let s1 := { s with statusMsg := "Re-printing..." }
      match printAttempt cfg cups s1 p with
      | (s2, none) => { s2 with statusMsg := "Photo re-printed successfully!" }
      | (s2, some m) => { s2 with statusMsg := "Re-print error: " ++ m }

/-- `MainWindow._discard_photo` (lines 906-918): hide the review and countdown
overlays and report; no file is removed and `last_composed_photo` is kept
(line 916 is commented out in the source). -/
def discardPhoto (s : MWState) : MWState :=
  { s with reviewVisible := false
           countdownVisible := false
           statusMsg := "Photo discarded (kept on disk)" }

/-! ## Events, reachability -/

/-- The external stimuli of the window: the two session-start buttons, the
1-second countdown timer, the 1.5-second inter-shot single-shot timer, and the
three photo-action buttons. -/
inductive Ev where
  | startSession (n : Nat)
  | tick
  | pauseElapsed
  | printClick
  | reprintClick
  | discardClick
deriving DecidableEq, Repr

/-- Whether a stimulus can fire in a state: button clicks require the button
to be enabled (and, for the review buttons, the review overlay to be shown);
timer callbacks require the corresponding timer to be running. -/
def issuable (s : MWState) : Ev → Bool
  | .startSession 1 => s.takeOneEnabled
  | .startSession 3 => s.takeThreeEnabled
  | .startSession _ => false
  | .tick => s.timerActive
  | .pauseElapsed => s.awaitingPause
  | .printClick => s.reviewVisible && s.printBtnEnabled
  | .reprintClick => s.reprintEnabled
  | .discardClick => s.reviewVisible && s.discardBtnEnabled

/-- The full environment of a run: configuration, camera oracle, CUPS. -/
structure Env where
  cfg : AppConfig
  cam : CaptureOracle
  cups : CupsEnv

/-- One dispatch of a stimulus to its slot. -/
def step (env : Env) (s : MWState) : Ev → Except PyErr MWState
  | .startSession n => startCountdown env.cfg env.cam s n
  | .tick => updateCountdown env.cfg env.cam s
  | .pauseElapsed => .ok (startNextShotCountdown env.cfg s)
  | .printClick => .ok (printPhoto env.cfg env.cups s)
  | .reprintClick => .ok (reprintLastPhoto env.cfg env.cups s)
  | .discardClick => .ok (discardPhoto s)

/-- Run a sequence of stimuli, stopping at the first uncaught exception. -/
def runEvents (env : Env) (s : MWState) : List Ev → Except PyErr MWState
  | [] => .ok s
  | e :: rest =>
    match step env s e with
    | .ok s1 => runEvents env s1 rest
    | .error err => .error err

/-- The states the window can actually be in: the initial state, and anything
produced by an issuable stimulus from a reachable state. -/
inductive Reachable (env : Env) : MWState → Prop
  | init : Reachable env initState
  | next {s s1 : MWState} {e : Ev} :
      Reachable env s → issuable s e = true → step env s e = .ok s1 →
      Reachable env s1

/-! ## Reachability invariant: an enabled print affordance implies a stored
composed photo -/

/-- The re-print button is enabled only once a composed photo reference is
stored, and the review print button can only be clicked (review shown and
button enabled) when a composed photo reference is stored. -/
def Inv (s : MWState) : Prop :=
  (s.reprintEnabled = true → s.lastComposedPhoto.isSome = true) ∧
  (s.reviewVisible = true → s.printBtnEnabled = true → s.lastComposedPhoto.isSome = true)

theorem finishCaptureSession_inv (s : MWState) : Inv (finishCaptureSession s) := by
  unfold finishCaptureSession showReview showErrorReview Inv
  split <;> simp

theorem captureAttempt_frame (cfg : AppConfig) (o : CaptureOracle) (s : MWState)
    (cur : Nat) (s1 : MWState) (h : captureAttempt cfg o s cur = .ok s1) :
    s1.reprintEnabled = s.reprintEnabled ∧ s1.reviewVisible = s.reviewVisible ∧
    s1.printBtnEnabled = s.printBtnEnabled ∧
    s1.lastComposedPhoto = s.lastComposedPhoto := by
  unfold captureAttempt at h
  split at h
  · split at h
    · split at h
      · split at h <;> (injection h with h; subst h; exact ⟨rfl, rfl, rfl, rfl⟩)
      · injection h with h; subst h; exact ⟨rfl, rfl, rfl, rfl⟩
    · split at h
      · cases h
      · injection h with h; subst h; exact ⟨rfl, rfl, rfl, rfl⟩
      · dsimp only at h
        split at h <;> (injection h with h; subst h; exact ⟨rfl, rfl, rfl, rfl⟩)
  · split at h
    · cases h
    · injection h with h; subst h; exact ⟨rfl, rfl, rfl, rfl⟩
    · dsimp only at h
      split at h <;> (injection h with h; subst h; exact ⟨rfl, rfl, rfl, rfl⟩)

theorem executeSingleCapture_inv (cfg : AppConfig) (o : CaptureOracle)
    (s s1 : MWState) (hInv : Inv s) (h : executeSingleCapture cfg o s = .ok s1) :
    Inv s1 := by
  unfold executeSingleCapture at h
  split at h
  · injection h with h; subst h; exact hInv
  · dsimp only at h
    split at h
    · cases h
    · rename_i s2 heq
      have hf := captureAttempt_frame _ _ _ _ _ heq
      split at h
      · injection h with h; subst h
        unfold startShotCountdown Inv
        dsimp only
        refine ⟨fun hre => ?_, fun hrv hpb => ?_⟩
        · rw [hf.2.2.2]; exact hInv.1 (hf.1.symm.trans hre)
        · rw [hf.2.2.2]
          exact hInv.2 (hf.2.1.symm.trans hrv) (hf.2.2.1.symm.trans hpb)
      · injection h with h; subst h
        exact finishCaptureSession_inv _

theorem updateCountdown_inv (cfg : AppConfig) (o : CaptureOracle)
    (s s1 : MWState) (hInv : Inv s) (h : updateCountdown cfg o s = .ok s1) :
    Inv s1 := by
  unfold updateCountdown at h
  split at h
  · injection h with h; subst h; exact hInv
  · refine executeSingleCapture_inv _ _ _ _ ?_ h
    exact ⟨hInv.1, hInv.2⟩

theorem startCountdown_inv (cfg : AppConfig) (o : CaptureOracle)
    (s : MWState) (n : Nat) (s1 : MWState) (hInv : Inv s)
    (h : startCountdown cfg o s n = .ok s1) : Inv s1 := by
  unfold startCountdown at h
  dsimp only at h
  refine updateCountdown_inv _ _ _ _ ?_ h
  refine ⟨fun hre => absurd hre (by simp), ?_⟩
  exact hInv.2

theorem printAttempt_frame (cfg : AppConfig) (cups : CupsEnv) (s : MWState)
    (p : String) :
    (printAttempt cfg cups s p).1.reprintEnabled = s.reprintEnabled ∧
    (printAttempt cfg cups s p).1.reviewVisible = s.reviewVisible ∧
    (printAttempt cfg cups s p).1.printBtnEnabled = s.printBtnEnabled ∧
    (printAttempt cfg cups s p).1.lastComposedPhoto = s.lastComposedPhoto := by
  unfold printAttempt
  split
  · exact ⟨rfl, rfl, rfl, rfl⟩
  · split
    · exact ⟨rfl, rfl, rfl, rfl⟩
    · split
      · exact ⟨rfl, rfl, rfl, rfl⟩
      · dsimp only
        split <;> exact ⟨rfl, rfl, rfl, rfl⟩

theorem printPhoto_inv (cfg : AppConfig) (cups : CupsEnv) (s : MWState)
    (hInv : Inv s) : Inv (printPhoto cfg cups s) := by
  unfold printPhoto
  split
  · exact hInv
  · rename_i p hp
    split
    · exact hInv
    · dsimp only
      have hf := printAttempt_frame cfg cups { s with statusMsg := "Printing..." } p
      rcases hpa : printAttempt cfg cups { s with statusMsg := "Printing..." } p with ⟨s2, e⟩
      rw [hpa] at hf
      dsimp only at hf
      cases e <;> dsimp only <;>
        refine ⟨fun hre => ?_, fun hrv _ => ?_⟩ <;>
        first
        | (rw [hf.2.2.2]; exact hInv.1 (hf.1.symm.trans hre))
        | exact absurd hrv (by simp)

theorem reprintLastPhoto_inv (cfg : AppConfig) (cups : CupsEnv) (s : MWState)
    (hInv : Inv s) : Inv (reprintLastPhoto cfg cups s) := by
  unfold reprintLastPhoto
  split
  · exact hInv
  · rename_i p hp
    split
    · exact hInv
    · dsimp only
      have hf := printAttempt_frame cfg cups { s with statusMsg := "Re-printing..." } p
      rcases hpa : printAttempt cfg cups { s with statusMsg := "Re-printing..." } p with ⟨s2, e⟩
      rw [hpa] at hf
      dsimp only at hf
      cases e <;> dsimp only <;>
        refine ⟨fun hre => ?_, fun hrv hpb => ?_⟩ <;>
        first
        | (rw [hf.2.2.2]; exact hInv.1 (hf.1.symm.trans hre))
        | (rw [hf.2.2.2]
           exact hInv.2 (hf.2.1.symm.trans hrv) (hf.2.2.1.symm.trans hpb))

theorem reachable_inv (env : Env) (s : MWState) (h : Reachable env s) : Inv s := by
  induction h with
  | init =>
    refine ⟨fun hre => ?_, fun hrv _ => ?_⟩
    · exact absurd hre (by simp [initState])
    · exact absurd hrv (by simp [initState])
  | next hr hiss hstep ih =>
    rename_i s0 s1 e
    cases e with
    | startSession n => exact startCountdown_inv _ _ _ _ _ ih hstep
    | tick => exact updateCountdown_inv _ _ _ _ ih hstep
    | pauseElapsed =>
      injection hstep with hstep; subst hstep
      exact ⟨ih.1, ih.2⟩
    | printClick =>
      injection hstep with hstep; subst hstep
      exact printPhoto_inv _ _ _ ih
    | reprintClick =>
      injection hstep with hstep; subst hstep
      exact reprintLastPhoto_inv _ _ _ ih
    | discardClick =>
      injection hstep with hstep; subst hstep
      refine ⟨ih.1, fun hrv _ => ?_⟩
      exact absurd hrv (by simp [discardPhoto])

/-! ## Claim theorems -/

/-- Helper: the crop box of `layouts.py` lines 61-82 stays inside the source
image (a crop, never padding), is centered on both axes, and is within one
pixel row or column of the 543:413 slot aspect.  With `cw` the crop width and
`ch` the crop height, `543 * ch ≤ 413 * cw + 412` and
`413 * cw ≤ 543 * ch + 542`. -/
theorem cropBox_spec (w h : Nat) :
    (cropBox w h).right ≤ w ∧ (cropBox w h).bottom ≤ h ∧
    (cropBox w h).left = (w - ((cropBox w h).right - (cropBox w h).left)) / 2 ∧
    (cropBox w h).top = (h - ((cropBox w h).bottom - (cropBox w h).top)) / 2 ∧
    543 * ((cropBox w h).bottom - (cropBox w h).top) ≤
      413 * ((cropBox w h).right - (cropBox w h).left) + 412 ∧
    413 * ((cropBox w h).right - (cropBox w h).left) ≤
      543 * ((cropBox w h).bottom - (cropBox w h).top) + 542 := by
  unfold cropBox
  split <;> dsimp only <;>
    refine ⟨?_, ?_, ?_, ?_, ?_, ?_⟩ <;> omega

/-- C8: for a 3-photo composition, each photo is (i) center-cropped to the
fixed slot aspect (crop-to-fill: the crop box never exceeds the source), (ii)
resized to the exact slot dimensions 543 by 413, (iii) placed in one of three
evenly spaced vertical slots (slot tops 89, 567, 1045, a constant 478 apart),
and (iv) pasted into both the left column (x = 28) and the right column
(x = 628) at the same vertical offset. -/
theorem C8_three_photo_layout (w1 h1 w2 h2 w3 h3 : Nat) :
    slotPlacements [(w1, h1), (w2, h2), (w3, h3)] =
      [⟨0, w1, h1, cropBox w1 h1, 28, 89, 543, 413⟩,
       ⟨0, w1, h1, cropBox w1 h1, 628, 89, 543, 413⟩,
       ⟨1, w2, h2, cropBox w2 h2, 28, 567, 543, 413⟩,
       ⟨1, w2, h2, cropBox w2 h2, 628, 567, 543, 413⟩,
       ⟨2, w3, h3, cropBox w3 h3, 28, 1045, 543, 413⟩,
       ⟨2, w3, h3, cropBox w3 h3, 628, 1045, 543, 413⟩] ∧
    (∀ w h : Nat,
      (cropBox w h).right ≤ w ∧ (cropBox w h).bottom ≤ h ∧
      (cropBox w h).left = (w - ((cropBox w h).right - (cropBox w h).left)) / 2 ∧
      (cropBox w h).top = (h - ((cropBox w h).bottom - (cropBox w h).top)) / 2 ∧
      543 * ((cropBox w h).bottom - (cropBox w h).top) ≤
        413 * ((cropBox w h).right - (cropBox w h).left) + 412 ∧
      413 * ((cropBox w h).right - (cropBox w h).left) ≤
        543 * ((cropBox w h).bottom - (cropBox w h).top) + 542) := by
  exact ⟨rfl, cropBox_spec⟩

/-- C9: a single photo is logically triplicated (`imgs = imgs + imgs + imgs`)
and the 3-up layout is reused: the composition has the six pastes of the 3-up
layout, all referring to photo 0, with exactly the slot geometry of a 3-photo
composition. -/
theorem C9_single_photo_triplicated (w h : Nat) :
    (slotPlacements [(w, h)]).length = 6 ∧
    (∀ p ∈ slotPlacements [(w, h)], p.photoIdx = 0) ∧
    (slotPlacements [(w, h)]).map
        (fun p => (p.srcW, p.srcH, p.crop, p.x, p.y, p.w, p.h)) =
      (slotPlacements [(w, h), (w, h), (w, h)]).map
        (fun p => (p.srcW, p.srcH, p.crop, p.x, p.y, p.w, p.h)) := by
  refine ⟨rfl, ?_, rfl⟩
  intro p hp
  have he : slotPlacements [(w, h)] =
      [⟨0, w, h, cropBox w h, 28, 89, 543, 413⟩,
       ⟨0, w, h, cropBox w h, 628, 89, 543, 413⟩,
       ⟨0, w, h, cropBox w h, 28, 567, 543, 413⟩,
       ⟨0, w, h, cropBox w h, 628, 567, 543, 413⟩,
       ⟨0, w, h, cropBox w h, 28, 1045, 543, 413⟩,
       ⟨0, w, h, cropBox w h, 628, 1045, 543, 413⟩] := rfl
  rw [he] at hp
  simp only [List.mem_cons, List.not_mem_nil, or_false] at hp
  rcases hp with rfl | rfl | rfl | rfl | rfl | rfl <;> rfl

/-- C9 witness: the triplication facts instantiated at an 800x600 photo, with
the membership hypothesis discharged at the first paste. -/
theorem C9_single_photo_triplicated_witness :
    (⟨0, 800, 600, cropBox 800 600, 28, 89, 543, 413⟩ : Placement).photoIdx = 0 ∧
    (slotPlacements [(800, 600)]).length = 6 := by
  have h := C9_single_photo_triplicated 800 600
  exact ⟨h.2.1 ⟨0, 800, 600, cropBox 800 600, 28, 89, 543, 413⟩ (by decide), h.1⟩

/-- C10: composing an empty photo sequence does not fail: the output is the
1200x1800 canvas, the paste loop runs zero times, the file is saved at
quality 95 at the destination path which is returned, and the saved pixels do
not depend on any photo content (only the base fill and whichever mask layers
were applied). -/
theorem C10_empty_sequence_composes (path : String)
    (bm bgm : Option MaskInput) :
    (compose_10x15_strip [] path bm bgm).width = 1200 ∧
    (compose_10x15_strip [] path bm bgm).height = 1800 ∧
    (compose_10x15_strip [] path bm bgm).placements = [] ∧
    (compose_10x15_strip [] path bm bgm).savedPath = path ∧
    (compose_10x15_strip [] path bm bgm).quality = 95 ∧
    (∀ f g : Nat → Nat → Color, ∀ x y : Nat,
      composedPixel (compose_10x15_strip [] path bm bgm) bm bgm f x y =
        composedPixel (compose_10x15_strip [] path bm bgm) bm bgm g x y) := by
  exact ⟨rfl, rfl, rfl, rfl, rfl, fun f g x y => rfl⟩

/-- A concrete existing, loadable, fully opaque red RGBA background mask. -/
def c4BgMask : MaskInput :=
  { fileExists := true, loadOk := true, mode := "RGBA",
    pix := fun _ _ => ⟨255, 0, 0, 255⟩ }

def c4Out : ComposeOut :=
  compose_10x15_strip [(800, 600)] "sessions/s0/print.jpg" none (some c4BgMask)

/-- C4 is refuted by the code: with an existing, loadable background mask the
background layer is never composited, because `layouts.py` line 27 calls
`canvas.convert('RGBAA')` — an invalid PIL mode — inside the `try`, so the
`except` swallows the `ValueError` and the canvas is left untouched.  At the
photo-free canvas position (0,0) the saved pixel is the white base fill,
whereas compositing the opaque red mask over the base fill (what the claim
asserts) would give red, which differs from white. -/
theorem C4_background_mask_never_composited :
    c4Out.backgroundApplied = false ∧
    (∀ f : Nat → Nat → Color,
      composedPixel c4Out none (some c4BgMask) f 0 0 = whiteFill) ∧
    over whiteFill (c4BgMask.pix 0 0) = ⟨255, 0, 0, 255⟩ ∧
    (⟨255, 0, 0, 255⟩ : Color) ≠ whiteFill := by
  refine ⟨rfl, fun f => rfl, rfl, by decide⟩

/-- C7: `print_file_cups` fails with the printer-not-found error exactly when
a non-empty printer name outside the available set is passed (an empty name
with an empty printer set fails differently, with an `IndexError`); and with
an empty name it dispatches to the first available printer with the built
option set, returning that submission result (the job id on success). -/
theorem C7_printer_not_found_characterization (availablePrinters : List String)
    (conn : String → String → List (String × String) → Except String Nat)
    (imagePath printerName : String) (copies : Nat) (paperName : Option String) :
    (print_file_cups availablePrinters conn imagePath printerName copies paperName =
        .printerNotFound ↔
      printerName ≠ "" ∧ availablePrinters.contains printerName = false) ∧
    (printerName = "" → ∀ p ps, availablePrinters = p :: ps →
      print_file_cups availablePrinters conn imagePath printerName copies paperName =
        match conn p imagePath (cupsOptions copies paperName) with
        | .ok j => .ok j
        | .error m => .submitError m) := by
  constructor
  · unfold print_file_cups
    split
    · rename_i hc
      simp only [Bool.and_eq_true, decide_eq_true_eq, Bool.not_eq_true,
        Bool.not_eq_true'] at hc
      exact ⟨fun _ => hc, fun _ => rfl⟩
    · rename_i hc
      constructor
      · intro hres
        exfalso
        revert hres
        split
        · intro hres; cases hres
        · split <;> (intro hres; cases hres)
      · intro hcond
        exfalso
        apply hc
        simp only [Bool.and_eq_true, decide_eq_true_eq, Bool.not_eq_true,
          Bool.not_eq_true']
        exact hcond
  · intro hemp p ps hap
    subst hemp
    subst hap
    simp [print_file_cups]

def c7Conn : String → String → List (String × String) → Except String Nat :=
  fun _ _ _ => .ok 7

/-- C7 witness: with one available printer, an empty configured printer name
and a submission that yields job id 7, the dispatcher returns job id 7. -/
theorem C7_witness_empty_name_uses_first_printer :
    print_file_cups ["photoPrinterA"] c7Conn "a/print.jpg" "" 2 none = .ok 7 := by
  have h := (C7_printer_not_found_characterization ["photoPrinterA"] c7Conn
    "a/print.jpg" "" 2 none).2 rfl "photoPrinterA" [] rfl
  exact h.trans rfl

/-- A camera oracle on which every frame read and save succeeds. -/
def goodOracle : CaptureOracle :=
  { frameOk := fun _ _ => true
    saveOk := fun _ _ => true
    dirName := fun k => "sessions/s" ++ toString k
    webcamShots := []
    dslrShots := [] }

/-- A CUPS daemon with one printer that accepts every submission as job 7. -/
def stubCups : CupsEnv :=
  { availablePrinters := ["photoPrinterA"]
    printFileConn := fun _ _ _ => .ok 7 }

/-- The default configuration with the DSLR camera mode selected. -/
def dslrCfg : AppConfig :=
  { defaultConfig with camera := { defaultConfig.camera with mode := .dslr } }

def dslrEnv : Env := ⟨dslrCfg, goodOracle, stubCups⟩

def c1Mid : MWState :=
  (runEvents dslrEnv initState [.startSession 3, .tick, .tick]).toOption.getD initState

/-- C1 is refuted by the code on the DSLR path: starting a 3-shot session in
DSLR mode and letting the countdown run out, the very first capture attempt
raises `AttributeError` instead of resolving — `_execute_single_capture`
(`main_window.py` lines 785-791) calls `capture_photos` without the
`num_photos` argument, so `output_dir` receives `None` and
`output_dir.mkdir(...)` fails — and the exception escapes the timer slot, so
the session never performs a composition attempt (the compose log stays empty
and the session attributes are still pending when the crash happens). -/
theorem C1_dslr_session_crashes_before_composing :
    issuable initState (.startSession 3) = true ∧
    runEvents dslrEnv initState [.startSession 3, .tick, .tick] = .ok c1Mid ∧
    c1Mid.composeLog = [] ∧
    c1Mid.capturedPhotos = [] ∧
    c1Mid.pendingSession = some 3 ∧
    issuable c1Mid .tick = true ∧
    runEvents dslrEnv initState [.startSession 3, .tick, .tick, .tick] =
      .error (.attributeError "object has no attribute mkdir") := by
  exact ⟨rfl, rfl, rfl, rfl, rfl, rfl, rfl⟩

/-- A webcam configuration with a one-second initial countdown. -/
def quickCfg : AppConfig :=
  { defaultConfig with
      session := { shots := 1, countdownSeconds := 1, captureDelay := 3,
                   saveDir := "sessions" } }

def printOnEnv : Env := ⟨quickCfg, goodOracle, stubCups⟩

/-- The review state after a successful single-shot webcam session. -/
def c2Before : MWState :=
  (runEvents printOnEnv initState [.startSession 1, .tick]).toOption.getD initState

def c2After : MWState := printPhoto printOnEnv.cfg printOnEnv.cups c2Before

/-- C2 is refuted by the code: with a composed photo under review and printing
enabled, pressing print performs no CUPS dispatch at all.  Evaluating the
arguments of `print_file_cups` reads `self.config.printing.paper_name`
(`main_window.py` line 932), but `PrintConfig` (`config.py` lines 25-29)
declares no `paper_name` field, so the lookup raises `AttributeError` inside
the `try`; the `except` reports a print error, and the window still returns to
the idle main screen.  The recorded CUPS call list stays empty. -/
theorem C2_print_dispatch_never_reaches_cups :
    c2Before.lastComposedPhoto = some "sessions/s0/print.jpg" ∧
    c2Before.reviewVisible = true ∧
    printOnEnv.cfg.printing.enabled = true ∧
    c2Before.cupsCalls = [] ∧
    c2After.cupsCalls = [] ∧
    c2After.statusMsg = "Print error: PrintConfig object has no attribute paper_name" ∧
    c2After.reviewVisible = false ∧
    c2After.countdownVisible = false ∧
    c2After.lastComposedPhoto = some "sessions/s0/print.jpg" := by
  exact ⟨rfl, rfl, rfl, rfl, rfl, rfl, rfl, rfl, rfl⟩

/-- C3: whenever the capture phase of a session resolves with zero successful
captures (`_captured_photos` empty), `_finish_capture_session` ends the
session in the error-review state: the review shows the error text instead of
a photo, the print button is disabled (so the print action cannot be
triggered), the re-print affordance is disabled, only discard stays enabled,
and no composition is attempted (the compose log and the stored composed-photo
reference are unchanged). -/
theorem C3_zero_captures_error_review (s : MWState)
    (h : s.capturedPhotos = []) :
    (finishCaptureSession s).reviewVisible = true ∧
    (finishCaptureSession s).reviewContent =
      .errorMsg "No photos were captured.\nPlease check camera connection." ∧
    (finishCaptureSession s).printBtnEnabled = false ∧
    (finishCaptureSession s).reprintEnabled = false ∧
    (finishCaptureSession s).discardBtnEnabled = true ∧
    (finishCaptureSession s).composeLog = s.composeLog ∧
    (finishCaptureSession s).lastComposedPhoto = s.lastComposedPhoto ∧
    (finishCaptureSession s).disk = s.disk := by
  simp [finishCaptureSession, h, showErrorReview]

/-- C3 witness: the error-review outcome evaluated at the initial state,
whose captured-photo list is empty. -/
theorem C3_zero_captures_error_review_witness :
    (finishCaptureSession initState).reviewVisible = true ∧
    (finishCaptureSession initState).reviewContent =
      .errorMsg "No photos were captured.\nPlease check camera connection." ∧
    (finishCaptureSession initState).printBtnEnabled = false ∧
    (finishCaptureSession initState).reprintEnabled = false ∧
    (finishCaptureSession initState).discardBtnEnabled = true ∧
    (finishCaptureSession initState).composeLog = initState.composeLog ∧
    (finishCaptureSession initState).lastComposedPhoto = initState.lastComposedPhoto ∧
    (finishCaptureSession initState).disk = initState.disk :=
  C3_zero_captures_error_review initState rfl

/-- C5: discarding only hides the review (and countdown) overlay: the set of
files on disk, the captured-photo paths, and the in-memory composed-photo
reference (so re-print stays possible) are all unchanged, and nothing else of
the window state changes either except the status-bar message. -/
theorem C5_discard_deletes_nothing (s : MWState) :
    (discardPhoto s).disk = s.disk ∧
    (discardPhoto s).capturedPhotos = s.capturedPhotos ∧
    (discardPhoto s).lastComposedPhoto = s.lastComposedPhoto ∧
    (discardPhoto s).reprintEnabled = s.reprintEnabled ∧
    (discardPhoto s).cupsCalls = s.cupsCalls ∧
    (discardPhoto s).composeLog = s.composeLog ∧
    (discardPhoto s).reviewVisible = false ∧
    (discardPhoto s).countdownVisible = false := by
  exact ⟨rfl, rfl, rfl, rfl, rfl, rfl, rfl, rfl⟩

/-- C6: in any reachable window state with printing disabled in the
configuration, whenever the print intent can actually be issued (review shown
with its print button enabled) or the re-print intent can be issued (re-print
button enabled), handling the intent performs zero calls of the CUPS dispatch
function and shows the disabled-state message.  Reachability supplies the
invariant that an issuable print intent implies a stored composed photo, so
the guard taken is the printing-disabled one. -/
theorem C6_disabled_printing_never_dispatches (env : Env) (s : MWState)
    (hr : Reachable env s) (hdis : env.cfg.printing.enabled = false) :
    (issuable s .printClick = true →
      (printPhoto env.cfg env.cups s).cupsCalls = s.cupsCalls ∧
      (printPhoto env.cfg env.cups s).statusMsg = "Printing is disabled in config") ∧
    (issuable s .reprintClick = true →
      (reprintLastPhoto env.cfg env.cups s).cupsCalls = s.cupsCalls ∧
      (reprintLastPhoto env.cfg env.cups s).statusMsg =
        "Printing is disabled in config") := by
  have hInv := reachable_inv env s hr
  constructor
  · intro hiss
    have hiss2 : s.reviewVisible = true ∧ s.printBtnEnabled = true := by
      simpa [issuable] using hiss
    obtain ⟨p, hp⟩ := Option.isSome_iff_exists.mp (hInv.2 hiss2.1 hiss2.2)
    unfold printPhoto
    rw [hp]
    simp [hdis]
  · intro hiss
    have hiss2 : s.reprintEnabled = true := by simpa [issuable] using hiss
    obtain ⟨p, hp⟩ := Option.isSome_iff_exists.mp (hInv.1 hiss2)
    unfold reprintLastPhoto
    rw [hp]
    simp [hdis]

/-- The quick webcam configuration with printing disabled. -/
def disabledPrintCfg : AppConfig :=
  { quickCfg with
      printing := { enabled := false, printerName := "", copies := 1,
                    paperSizeMM := (100, 150) } }

def c6Env : Env := ⟨disabledPrintCfg, goodOracle, stubCups⟩

def c6Mid : MWState :=
  (step c6Env initState (.startSession 1)).toOption.getD initState

def c6Review : MWState :=
  (step c6Env c6Mid .tick).toOption.getD initState

/-- C6 witness: after one successful single-shot session under the
printing-disabled configuration, both intents are issuable, and both leave the
CUPS call list unchanged and show the disabled-state message. -/
theorem C6_disabled_printing_never_dispatches_witness :
    issuable c6Review .printClick = true ∧
    issuable c6Review .reprintClick = true ∧
    (printPhoto c6Env.cfg c6Env.cups c6Review).cupsCalls = c6Review.cupsCalls ∧
    (printPhoto c6Env.cfg c6Env.cups c6Review).statusMsg =
      "Printing is disabled in config" ∧
    (reprintLastPhoto c6Env.cfg c6Env.cups c6Review).cupsCalls = c6Review.cupsCalls ∧
    (reprintLastPhoto c6Env.cfg c6Env.cups c6Review).statusMsg =
      "Printing is disabled in config" := by
  have h0 : Reachable c6Env initState := Reachable.init
  have h1 : Reachable c6Env c6Mid :=
    Reachable.next h0
      (by rfl : issuable initState (.startSession 1) = true)
      (by rfl : step c6Env initState (.startSession 1) = .ok c6Mid)
  have h2 : Reachable c6Env c6Review :=
    Reachable.next h1
      (by rfl : issuable c6Mid .tick = true)
      (by rfl : step c6Env c6Mid .tick = .ok c6Review)
  have h := C6_disabled_printing_never_dispatches c6Env c6Review h2 rfl
  exact ⟨rfl, rfl, (h.1 rfl).1, (h.1 rfl).2, (h.2 rfl).1, (h.2 rfl).2⟩

end Photokiller
